import Mathlib

/-!
Verification development for the tangogql repository (aioserver.py and
tangogql/schema/types.py), shallowly embedding the code relevant to the
frozen claims: the EventKeeper, the serialize helper, the consumer loop,
the websocket session handler, the db_handler, and ScalarTypes.
-/

namespace TangoGql

/-- Python exceptions that the embedded code can raise or return.
JSONDecodeError is kept distinct from ValueError even though it is a
subclass, because the embedded handler only catches RuntimeError, so the
distinction never changes control flow. -/
inductive PyExc
  | valueError (msg : String)
  | nameError (msg : String)
  | keyError (key : String)
  | typeError (msg : String)
  | runtimeError (msg : String)
  | jsonDecodeError (msg : String)
deriving DecidableEq, Repr

/-- Python floats, modelled as a tagged type that distinguishes the finite,
infinite and NaN cases; coerce_type only inspects the infinity tag. -/
inductive PyFloat
  | finite (q : Rat)
  | inf
  | negInf
  | nan
deriving DecidableEq, Repr

/-- Python math.isinf. -/
def PyFloat.isinf : PyFloat → Bool
  | .inf => true
  | .negInf => true
  | _ => false

/-- Python str() on a float: str(float("inf")) is "inf", str(float("-inf"))
is "-inf"; the finite rendering is a stand-in (coerce_type never calls str
on a finite float). -/
def floatStr : PyFloat → String
  | .inf => "inf"
  | .negInf => "-inf"
  | .nan => "nan"
  | .finite q => toString q

/-- Dynamically typed Python values as they flow through ScalarTypes:
ints, strings, booleans, floats, lists, PyTango DevState objects, None, and
Exception objects (parse_literal returns exceptions as ordinary values). -/
inductive PyValue
  | pyInt (n : Int)
  | pyStr (s : String)
  | pyBool (b : Bool)
  | pyFloatV (f : PyFloat)
  | pyList (xs : List PyValue)
  | devState (name : String)
  | pyNone
  | pyExc (e : PyExc)
deriving Repr

/-- Python type(value).__name__ for the embedded value universe. -/
def PyValue.typeName : PyValue → String
  | .pyInt _ => "int"
  | .pyStr _ => "str"
  | .pyBool _ => "bool"
  | .pyFloatV _ => "float"
  | .pyList _ => "list"
  | .devState _ => "DevState"
  | .pyNone => "NoneType"
  | .pyExc _ => "Exception"

/-- Python str() on the embedded values (str of a DevState is its name,
e.g. "ON"); list and exception renderings are stand-ins, unused by the
embedded code paths. -/
def pyStrOf : PyValue → String
  | .pyStr s => s
  | .pyInt n => toString n
  | .pyBool b => if b then "True" else "False"
  | .pyFloatV f => floatStr f
  | .devState name => name
  | .pyNone => "None"
  | .pyList _ => "[...]"
  | .pyExc _ => "exception"

/-- ScalarTypes.coerce_type (types.py lines 34-50): DevState values are
returned as their string form; floats are returned as str(value) when
infinite and unchanged when finite; everything else is returned unchanged. -/
def ScalarTypes.coerce_type (value : PyValue) : PyValue :=
  if value.typeName = "DevState" then .pyStr (pyStrOf value)
  else
    match value with
    | .pyFloatV f => if f.isinf then .pyStr (floatStr f) else .pyFloatV f
    | v => v

/-- GraphQL AST nodes as dispatched on by ScalarTypes.parse_literal.
IntValue/FloatValue nodes carry their literal text (graphql-core ast
stores the raw string in node.value); otherNode stands for every other
ast class (EnumValue, ObjectValue, Variable, NullValue, ...). -/
inductive AstNode
  | intValue (v : String)
  | floatValue (v : String)
  | booleanValue (b : Bool)
  | stringValue (v : String)
  | listValue (values : List AstNode)
  | otherNode (kind : String)
deriving Repr

/-- Value of one decimal digit character. -/
def digitVal (c : Char) : Option Nat :=
  if c.isDigit then some (c.toNat - 48) else none

/-- Accumulating read of a digit run. -/
def digitsValCore : List Char → Nat → Option Nat
  | [], acc => some acc
  | c :: cs, acc =>
      match digitVal c with
      | some d => digitsValCore cs (acc * 10 + d)
      | none => none

/-- A nonempty run of decimal digits as a Nat. -/
def digitsVal : List Char → Option Nat
  | [] => none
  | cs => digitsValCore cs 0

/-- Model of the Python int() builtin on literal text: optional sign then a
nonempty digit run (whitespace and underscore tolerance are unmodelled; no
claim depends on them). Returns none where int() raises ValueError. -/
def pyIntParse (s : String) : Option Int :=
  match s.toList with
  | '-' :: rest => (digitsVal rest).map (fun n => -(n : Int))
  | '+' :: rest => (digitsVal rest).map (fun n => (n : Int))
  | cs => (digitsVal cs).map (fun n => (n : Int))

/-- Splits a character list at every dot. -/
def splitDots : List Char → List (List Char)
  | [] => [[]]
  | c :: rest =>
      if c = '.' then [] :: splitDots rest
      else
        match splitDots rest with
        | seg :: more => (c :: seg) :: more
        | [] => [[c]]

/-- Magnitude of a literal with integer part and fractional part (either
side may be empty but not both, as Python float() accepts "1." and ".5"
but not "."). -/
def fracMag (ip fp : List Char) : Option Rat :=
  if ip = [] ∧ fp = [] then none
  else
    match (if ip = [] then some 0 else digitsVal ip),
          (if fp = [] then some 0 else digitsVal fp) with
    | some i, some f => some ((i : Rat) + (f : Rat) / ((10 : Rat) ^ fp.length))
    | _, _ => none

/-- Unsigned core of a float literal: digits with at most one dot. -/
def floatCore (cs : List Char) : Option Rat :=
  match splitDots cs with
  | [ip] => (digitsVal ip).map (fun n => (n : Rat))
  | [ip, fp] => fracMag ip fp
  | _ => none

/-- Model of the Python float() builtin on literal text: the infinity and
nan spellings, or an optionally signed decimal number with an optional
fractional part. Exponent notation is left out of the model; no claim
depends on it. Returns none where float() raises ValueError. -/
def pyFloatParse (s : String) : Option PyFloat :=
  if s = "inf" ∨ s = "Infinity" then some .inf
  else if s = "-inf" ∨ s = "-Infinity" then some .negInf
  else if s = "nan" then some .nan
  else
    match s.toList with
    | '-' :: rest => (floatCore rest).map (fun q => .finite (-q))
    | '+' :: rest => (floatCore rest).map (fun q => .finite q)
    | cs => (floatCore cs).map (fun q => .finite q)

mutual

/-- ScalarTypes.parse_literal (types.py lines 69-96). The whole body sits
in a try/except that returns (not raises) any caught exception, so the
embedding is a total function into PyValue: the two fallible conversions
(int(node.value), float(node.value)) yield the caught ValueError as a
returned value, list nodes recurse elementwise (inner failures become
Exception objects inside the list, since the recursive call returns them),
and any other node kind yields the raised-then-caught ValueError. -/
def ScalarTypes.parse_literal : AstNode → PyValue
  | .intValue v =>
      match pyIntParse v with
      | some n => .pyInt n
      | none => .pyExc (.valueError ("invalid literal for int() with base 10: " ++ v))
  | .floatValue v =>
      match pyFloatParse v with
      | some f => .pyFloatV f
      | none => .pyExc (.valueError ("could not convert string to float: " ++ v))
  | .booleanValue b => .pyBool b
  | .listValue vs => .pyList (parse_literal_elems vs)
  | .stringValue v => .pyStr v
  | .otherNode _ => .pyExc (.valueError "The input value is not of acceptable types")

/-- The elementwise recursion of the list comprehension in parse_literal. -/
def parse_literal_elems : List AstNode → List PyValue
  | [] => []
  | n :: ns => ScalarTypes.parse_literal n :: parse_literal_elems ns

end

example : ScalarTypes.coerce_type (.pyFloatV .inf) = .pyStr "inf" := rfl
example : ScalarTypes.coerce_type (.pyInt 3) = .pyInt 3 := rfl
example : ScalarTypes.parse_literal (.intValue "12") = .pyInt 12 := rfl
example : ScalarTypes.parse_literal (.listValue [.intValue "1", .otherNode "EnumValue"])
    = .pyList [.pyInt 1, .pyExc (.valueError "The input value is not of acceptable types")] := rfl

lemma parse_literal_elems_eq_map (vs : List AstNode) :
    parse_literal_elems vs = vs.map ScalarTypes.parse_literal := by
  induction vs with
  | nil => rfl
  | cons n ns ih => simp [parse_literal_elems, ih]

/-- C9: the scalar coercion used for query results turns an infinite float
(positive or negative) into its string representation, returns finite
floats unchanged, and returns every value that is neither a float nor a
DevState unchanged. -/
theorem c9_coerce_type_infinite_floats (f : PyFloat) (v : PyValue) :
    (f.isinf = true → ScalarTypes.coerce_type (.pyFloatV f) = .pyStr (floatStr f))
    ∧ (f.isinf = false → ScalarTypes.coerce_type (.pyFloatV f) = .pyFloatV f)
    ∧ (v.typeName ≠ "DevState" → v.typeName ≠ "float" →
        ScalarTypes.coerce_type v = v) := by
  refine ⟨?_, ?_, ?_⟩
  · intro h
    simp [ScalarTypes.coerce_type, PyValue.typeName, h]
  · intro h
    simp [ScalarTypes.coerce_type, PyValue.typeName, h]
  · intro h1 h2
    cases v <;> simp_all [ScalarTypes.coerce_type, PyValue.typeName]

/-- Witness for C9 at concrete inputs: positive infinity becomes "inf",
the finite float 2 and the string "x" pass through unchanged. -/
theorem c9_witness :
    ScalarTypes.coerce_type (.pyFloatV .inf) = .pyStr "inf"
    ∧ ScalarTypes.coerce_type (.pyFloatV (.finite 2)) = .pyFloatV (.finite 2)
    ∧ ScalarTypes.coerce_type (.pyStr "x") = .pyStr "x" :=
  ⟨(c9_coerce_type_infinite_floats .inf (.pyStr "x")).1 rfl,
   (c9_coerce_type_infinite_floats (.finite 2) (.pyStr "x")).2.1 rfl,
   (c9_coerce_type_infinite_floats .inf (.pyStr "x")).2.2 (by decide) (by decide)⟩

/-- C10: parse_literal is total — it is a function into values, never an
exception propagation — and dispatches as the code does: int, float,
boolean, string and (recursively) list nodes yield the parsed Python
value, failed int()/float() conversions and any other node kind yield an
Exception object returned (not raised) to the caller. -/
theorem c10_parse_literal_total_dispatch
    (s v k : String) (b : Bool) (vs : List AstNode) (n : Int) :
    (pyIntParse s = some n → ScalarTypes.parse_literal (.intValue s) = .pyInt n)
    ∧ (pyIntParse s = none →
        ∃ e, ScalarTypes.parse_literal (.intValue s) = .pyExc e)
    ∧ (∀ f, pyFloatParse s = some f →
        ScalarTypes.parse_literal (.floatValue s) = .pyFloatV f)
    ∧ (pyFloatParse s = none →
        ∃ e, ScalarTypes.parse_literal (.floatValue s) = .pyExc e)
    ∧ ScalarTypes.parse_literal (.booleanValue b) = .pyBool b
    ∧ ScalarTypes.parse_literal (.stringValue v) = .pyStr v
    ∧ ScalarTypes.parse_literal (.listValue vs)
        = .pyList (vs.map ScalarTypes.parse_literal)
    ∧ (∃ e, ScalarTypes.parse_literal (.otherNode k) = .pyExc e) := by
  refine ⟨?_, ?_, ?_, ?_, rfl, rfl, ?_, ?_⟩
  · intro h; simp [ScalarTypes.parse_literal, h]
  · intro h
    exact ⟨.valueError ("invalid literal for int() with base 10: " ++ s),
      by simp [ScalarTypes.parse_literal, h]⟩
  · intro f h; simp [ScalarTypes.parse_literal, h]
  · intro h
    exact ⟨.valueError ("could not convert string to float: " ++ s),
      by simp [ScalarTypes.parse_literal, h]⟩
  · simp [ScalarTypes.parse_literal, parse_literal_elems_eq_map]
  · exact ⟨_, rfl⟩

/-- Witness for C10 at concrete inputs: an int literal, the infinity float
literal, a malformed int literal, and an unsupported node kind. -/
theorem c10_witness :
    ScalarTypes.parse_literal (.intValue "12") = .pyInt 12
    ∧ ScalarTypes.parse_literal (.floatValue "inf") = .pyFloatV .inf
    ∧ (∃ e, ScalarTypes.parse_literal (.intValue "x7") = .pyExc e)
    ∧ (∃ e, ScalarTypes.parse_literal (.otherNode "EnumValue") = .pyExc e) :=
  ⟨(c10_parse_literal_total_dispatch "12" "" "" true [] 12).1 (by decide),
   (c10_parse_literal_total_dispatch "inf" "" "" true [] 0).2.2.1 .inf (by decide),
   (c10_parse_literal_total_dispatch "x7" "" "" true [] 0).2.1 (by decide),
   (c10_parse_literal_total_dispatch "" "" "EnumValue" true [] 0).2.2.2.2.2.2.2⟩

/-! ## EventKeeper (aioserver.py lines 74-94)

The Python `_events` field is a defaultdict(dict): a mapping from event
kind (the `action` argument) to a mapping from attribute name (the
`model` argument) to the latest value. We embed the nested dict as a flat
partial map keyed by the pair (action, model), which is exactly the set
of assignments `_events[action][model] = value` performed by `put`. -/

/-- A Python dict keyed by (action, model), embedded as a partial map. -/
def DictAM (V : Type) : Type := String × String → Option V

/-- The empty dict. -/
def emptyAM {V : Type} : DictAM V := fun _ => none

/-- Dict assignment d[key] = v. -/
def updateAM {V : Type} (d : DictAM V) (key : String × String) (v : V) : DictAM V :=
  fun x => if x = key then some v else d x

/-- Dict.update: entries of upd win over entries of base. -/
def overlayAM {V : Type} (base upd : DictAM V) : DictAM V :=
  fun key =>
    match upd key with
    | some v => some v
    | none => base key

/-- The EventKeeper state: pending events, their timestamps, and the
latest-ever map maintained by get. -/
structure EventKeeper (V : Type) where
  events : DictAM V
  timestamps : DictAM Nat
  latest : DictAM V

/-- EventKeeper.__init__: all three defaultdicts start empty. -/
def EventKeeper.init {V : Type} : EventKeeper V :=
  { events := emptyAM, timestamps := emptyAM, latest := emptyAM }

/-- EventKeeper.put(model, action, value): sets _events[action][model] and
_timestamps[action][model]; the wall-clock time.time() is passed in as
the argument now. -/
def EventKeeper.put {V : Type} (k : EventKeeper V)
    (model action : String) (value : V) (now : Nat) : EventKeeper V :=
  { k with
    events := updateAM k.events (action, model) value
    timestamps := updateAM k.timestamps (action, model) now }

/-- EventKeeper.get(): swaps _events for a fresh empty defaultdict, folds
the drained entries into _latest, and returns the drained batch. -/
def EventKeeper.get {V : Type} (k : EventKeeper V) : DictAM V × EventKeeper V :=
  (k.events,
   { events := emptyAM
     timestamps := k.timestamps
     latest := overlayAM k.latest k.events })

/-- One put record: the arguments of one EventKeeper.put call. -/
structure PutRec (V : Type) where
  model : String
  action : String
  value : V
  now : Nat

/-- The dict entry a single put would create. -/
def singleAM {V : Type} (p : PutRec V) : DictAM V :=
  fun key => if key = (p.action, p.model) then some p.value else none

/-- Last-write-wins coalescing of a run of puts: later puts in the list
override earlier ones on the same (action, model) key. -/
def coalesce {V : Type} : List (PutRec V) → DictAM V
  | [] => emptyAM
  | p :: rest => overlayAM (singleAM p) (coalesce rest)

/-- An operation on one EventKeeper: a put call or a drain (get) call. -/
inductive EKOp (V : Type)
  | put (p : PutRec V)
  | drain

/-- Runs a sequence of operations against a keeper, collecting the batch
returned by each drain in order. -/
def runEK {V : Type} : EventKeeper V → List (EKOp V) → EventKeeper V × List (DictAM V)
  | k, [] => (k, [])
  | k, .put p :: rest => runEK (k.put p.model p.action p.value p.now) rest
  | k, .drain :: rest =>
      ((runEK (k.get).2 rest).1, (k.get).1 :: (runEK (k.get).2 rest).2)

/-- Splits an operation sequence into the runs of puts preceding each
drain (first component, one entry per drain) and the trailing puts after
the last drain (second component). -/
def segsEK {V : Type} : List (EKOp V) → List (List (PutRec V)) × List (PutRec V)
  | [] => ([], [])
  | .put p :: rest =>
      match segsEK rest with
      | ([], trail) => ([], p :: trail)
      | (s :: ss, trail) => ((p :: s) :: ss, trail)
  | .drain :: rest =>
      match segsEK rest with
      | (ss, trail) => ([] :: ss, trail)

/-- Expected batches when the run starts from pending map e: the first
drain also carries whatever was already pending. -/
def specBatches {V : Type} (e : DictAM V) : List (List (PutRec V)) → List (DictAM V)
  | [] => []
  | s :: ss => overlayAM e (coalesce s) :: ss.map coalesce

/-- Expected pending map at the end of the run. -/
def specPending {V : Type} (e : DictAM V)
    (segs : List (List (PutRec V))) (trail : List (PutRec V)) : DictAM V :=
  match segs with
  | [] => overlayAM e (coalesce trail)
  | _ :: _ => coalesce trail

lemma overlayAM_emptyAM_left {V : Type} (m : DictAM V) : overlayAM emptyAM m = m := by
  funext key
  simp only [overlayAM, emptyAM]
  cases m key <;> rfl

lemma overlayAM_emptyAM_right {V : Type} (m : DictAM V) : overlayAM m emptyAM = m := by
  funext key
  simp only [overlayAM, emptyAM]

lemma overlayAM_updateAM {V : Type} (e m : DictAM V) (p : PutRec V) :
    overlayAM (updateAM e (p.action, p.model) p.value) m
      = overlayAM e (overlayAM (singleAM p) m) := by
  funext key
  simp only [overlayAM, updateAM, singleAM]
  cases h : m key with
  | some v => rfl
  | none =>
      by_cases hk : key = (p.action, p.model) <;> simp [hk]

lemma specBatches_emptyAM {V : Type} (segs : List (List (PutRec V))) :
    specBatches emptyAM segs = segs.map coalesce := by
  cases segs with
  | nil => rfl
  | cons s ss => simp [specBatches, overlayAM_emptyAM_left]

lemma specPending_emptyAM {V : Type} (segs : List (List (PutRec V)))
    (trail : List (PutRec V)) : specPending emptyAM segs trail = coalesce trail := by
  cases segs with
  | nil => simp [specPending, overlayAM_emptyAM_left]
  | cons s ss => rfl

lemma runEK_shape {V : Type} (ops : List (EKOp V)) : ∀ k : EventKeeper V,
    (runEK k ops).2 = specBatches k.events (segsEK ops).1
    ∧ (runEK k ops).1.events = specPending k.events (segsEK ops).1 (segsEK ops).2 := by
  induction ops with
  | nil =>
      intro k
      refine ⟨rfl, ?_⟩
      simp [runEK, segsEK, specPending, coalesce, overlayAM_emptyAM_right]
  | cons op rest ih =>
      intro k
      cases op with
      | put p =>
          have h := ih (k.put p.model p.action p.value p.now)
          constructor
          · rw [show runEK k (.put p :: rest)
                  = runEK (k.put p.model p.action p.value p.now) rest from rfl]
            rw [h.1]
            simp only [segsEK]
            cases hs : segsEK rest with
            | mk ss trail =>
                cases ss with
                | nil => simp [specBatches]
                | cons s ss' =>
                    simp only [specBatches, EventKeeper.put, hs]
                    rw [overlayAM_updateAM]
                    rfl
          · rw [show runEK k (.put p :: rest)
                  = runEK (k.put p.model p.action p.value p.now) rest from rfl]
            rw [h.2]
            simp only [segsEK]
            cases hs : segsEK rest with
            | mk ss trail =>
                cases ss with
                | nil =>
                    simp only [specPending, EventKeeper.put, hs]
                    rw [overlayAM_updateAM]
                    rfl
                | cons s ss' => simp [specPending, hs]
      | drain =>
          have h := ih (k.get).2
          have hev : ((k.get).2).events = emptyAM := rfl
          constructor
          · rw [show (runEK k (.drain :: rest)).2
                  = (k.get).1 :: (runEK (k.get).2 rest).2 from rfl]
            rw [h.1, hev, specBatches_emptyAM]
            simp only [segsEK]
            cases hs : segsEK rest with
            | mk ss trail =>
                simp only [specBatches, hs, EventKeeper.get, coalesce,
                  overlayAM_emptyAM_right]
          · rw [show (runEK k (.drain :: rest)).1
                  = (runEK (k.get).2 rest).1 from rfl]
            rw [h.2, hev, specPending_emptyAM]
            simp only [segsEK]
            cases hs : segsEK rest with
            | mk ss trail => rfl

/-- C1: for any sequence of put calls interleaved with get (drain) calls
starting from a fresh EventKeeper, the i-th drained batch is exactly the
last-write-wins coalescing of the puts made since the previous drain —
every put is delivered in exactly the one batch that follows it, except
that an earlier put to the same (point, kind) key overwritten before the
drain is discarded in favour of the last one — the pending events left at
the end are exactly the coalescing of the puts after the last drain, and
draining always leaves the pending-events store empty. -/
theorem c1_eventkeeper_exactly_once_coalesce (V : Type) :
    (∀ ops : List (EKOp V),
      (runEK EventKeeper.init ops).2 = ((segsEK ops).1).map coalesce
      ∧ (runEK EventKeeper.init ops).1.events = coalesce (segsEK ops).2)
    ∧ (∀ k : EventKeeper V, ((k.get).2).events = emptyAM) := by
  constructor
  · intro ops
    have h := runEK_shape ops (EventKeeper.init : EventKeeper V)
    have hev : (EventKeeper.init : EventKeeper V).events = emptyAM := rfl
    refine ⟨?_, ?_⟩
    · rw [h.1, hev, specBatches_emptyAM]
    · rw [h.2, hev, specPending_emptyAM]
  · intro k
    rfl

/-! ## JSON values and the websocket session (aioserver.py lines 97-148)

Inbound client messages are JSON texts. The external json.loads is
modelled by its outcome: a text frame carries either the parsed JSON
value or the JSONDecodeError the parse raised. -/

/-- Parsed JSON values. -/
inductive JVal
  | jstr (s : String)
  | jnum (n : Int)
  | jbool (b : Bool)
  | jnull
  | jlist (xs : List JVal)
  | jobj (fields : List (String × JVal))
deriving Repr

/-- Python == between a JSON value and a string constant: only equal
strings compare equal (a number, boolean, list or dict never equals a
str). -/
def jeqStr (v : JVal) (s : String) : Bool :=
  match v with
  | .jstr t => t == s
  | _ => false

/-- Equality test used for dict keys in the model. Python's numeric
aliasing of booleans with ints (True == 1) is not modelled; composite
keys are unhashable in Python and do not occur in the claims. -/
def jkeyEq : JVal → JVal → Bool
  | .jstr a, .jstr b => a == b
  | .jnum a, .jnum b => a == b
  | .jbool a, .jbool b => a == b
  | .jnull, .jnull => true
  | _, _ => false

/-- Lookup in a parsed JSON object (keys are unique in a Python dict). -/
def jlookup : List (String × JVal) → String → Option JVal
  | [], _ => none
  | (k, v) :: rest, key => if k = key then some v else jlookup rest key

/-- Python iteration over the value of action["models"]: lists yield their
elements, strings their characters, dicts their keys; numbers, booleans
and None are not iterable. -/
def jiter : JVal → Except PyExc (List JVal)
  | .jlist xs => .ok xs
  | .jstr s => .ok (s.toList.map (fun c => .jstr (String.mk [c])))
  | .jobj fs => .ok (fs.map (fun kv => .jstr kv.1))
  | .jnum _ => .error (.typeError "int object is not iterable")
  | .jbool _ => .error (.typeError "bool object is not iterable")
  | .jnull => .error (.typeError "NoneType object is not iterable")

/-- Dict assignment listeners[attr] = handle on an association list with
at most one entry per key. -/
def dictSet (d : List (JVal × Nat)) (key : JVal) (v : Nat) : List (JVal × Nat) :=
  match d with
  | [] => [(key, v)]
  | (k, x) :: rest =>
      if jkeyEq k key then (key, v) :: rest else (k, x) :: dictSet rest key v

/-- Dict listeners.pop(attr, None): the removed value, if any, and the
remaining dict. -/
def dictPop (d : List (JVal × Nat)) (key : JVal) : Option Nat × List (JVal × Nat) :=
  match d with
  | [] => (none, [])
  | (k, x) :: rest =>
      if jkeyEq k key then (some x, rest)
      else ((dictPop rest key).1, (k, x) :: (dictPop rest key).2)

/-- One connection's subscription state: the handler's listeners dict
(point id to adapter handle id) and — Modelled from the spec: listener.py
is not under src/, so the Update Source Adapter is taken from the spec's
register/deregister interface — the set of adapter registrations
currently active in the external monitoring subsystem, as (handle id,
point id) pairs with fresh handle ids from nextId. -/
structure SessionState where
  listeners : List (JVal × Nat)
  active : List (Nat × JVal)
  nextId : Nat
deriving Repr

/-- The state at the top of handle_websocket: listeners = {} and no
registrations made yet by this connection. -/
def sessionInit : SessionState :=
  { listeners := [], active := [], nextId := 0 }

/-- Modelled from the spec: constructing TaurusWebAttribute(attr, keeper)
registers one callback with the external monitoring subsystem and returns
the adapter handle; the registration stays active until clear() is
called on that handle. -/
def registerListener (st : SessionState) (attr : JVal) : Nat × SessionState :=
  (st.nextId,
   { st with active := st.active ++ [(st.nextId, attr)], nextId := st.nextId + 1 })

/-- Modelled from the spec: listener.clear() deregisters the adapter
registration held by the given handle. -/
def clearListener (st : SessionState) (h : Nat) : SessionState :=
  { st with active := st.active.filter (fun r => r.1 != h) }

/-- The SUBSCRIBE loop body (aioserver.py lines 124-128): for each model,
construct a TaurusWebAttribute and overwrite the listeners dict entry.
The overwritten previous handle, if any, is dropped without clear(). -/
def subscribeAll (st : SessionState) : List JVal → SessionState
  | [] => st
  | attr :: rest =>
      let hst := registerListener st attr
      subscribeAll { hst.2 with listeners := dictSet hst.2.listeners attr hst.1 } rest

/-- The UNSUBSCRIBE loop body (aioserver.py lines 129-134): pop the dict
entry and clear() it when present. -/
def unsubscribeAll (st : SessionState) : List JVal → SessionState
  | [] => st
  | attr :: rest =>
      match dictPop st.listeners attr with
      | (some h, d2) =>
          unsubscribeAll (clearListener { st with listeners := d2 } h) rest
      | (none, d2) => unsubscribeAll { st with listeners := d2 } rest

/-- Dispatch on a parsed text command (aioserver.py lines 120-134):
action["type"] raises for non-objects and missing keys; a type that is
neither "SUBSCRIBE" nor "UNSUBSCRIBE" falls through the if/elif chain and
is ignored. -/
def handle_text (st : SessionState) (action : JVal) : Except PyExc SessionState :=
  match action with
  | .jobj fields =>
      match jlookup fields "type" with
      | none => .error (.keyError "type")
      | some ty =>
          if jeqStr ty "SUBSCRIBE" then
            match jlookup fields "models" with
            | none => .error (.keyError "models")
            | some m =>
                match jiter m with
                | .ok models => .ok (subscribeAll st models)
                | .error e => .error e
          else if jeqStr ty "UNSUBSCRIBE" then
            match jlookup fields "models" with
            | none => .error (.keyError "models")
            | some m =>
                match jiter m with
                | .ok models => .ok (unsubscribeAll st models)
                | .error e => .error e
          else .ok st
  | _ => .error (.typeError "value is not subscriptable")

/-- One message as returned by ws.receive(): a text frame carrying its
json.loads outcome, an error frame (logged and ignored), or any other
frame type (close, binary, ping: no branch of the dispatch matches it). -/
inductive WsMsg
  | text (loads : Except PyExc JVal)
  | wserror
  | otherKind
deriving Repr

/-- One turn of the read loop as seen from outside: either ws.receive()
yields a message, or ws.receive() itself raises (the receive call sits
outside the try, so such an exception always escapes the handler). -/
inductive RecvEvent
  | msg (m : WsMsg)
  | recvRaised (e : PyExc)
deriving Repr

/-- Only RuntimeError is caught by the read loop's except clause. -/
def isRuntimeError : PyExc → Bool
  | .runtimeError _ => true
  | _ => false

/-- The inner dispatch of the read loop, inside the try block. -/
def handleMsg (st : SessionState) : WsMsg → Except PyExc SessionState
  | .text (.error e) => .error e
  | .text (.ok action) => handle_text st action
  | .wserror => .ok st
  | .otherKind => .ok st

/-- How a run of the read loop ended. -/
inductive SessionOutcome
  | reading
  | died (e : PyExc)
deriving Repr, DecidableEq

/-- Result of running the read loop: final subscription state, how the
loop ended, and whether the teardown block after the loop (aioserver.py
lines 141-144) executed. -/
structure SessionRun where
  st : SessionState
  outcome : SessionOutcome
  cleaned : Bool
deriving Repr

/-- The read loop of handle_websocket (aioserver.py lines 117-139) over a
finite inbound script. The while True loop contains no break, so the
teardown block below it is unreachable: the loop either keeps reading
(reading) or an uncaught exception escapes the handler (died), and in
both cases cleaned is false. -/
def runSession (st : SessionState) : List RecvEvent → SessionRun
  | [] => ⟨st, .reading, false⟩
  | .recvRaised e :: _ => ⟨st, .died e, false⟩
  | .msg m :: rest =>
      match handleMsg st m with
      | .ok st2 => runSession st2 rest
      | .error e =>
          if isRuntimeError e then runSession st rest
          else ⟨st, .died e, false⟩

/-- Number of active adapter registrations for one point id. -/
def activeCount (st : SessionState) (attr : JVal) : Nat :=
  (st.active.filter (fun r => jkeyEq r.2 attr)).length

/-! ## serialize and the consumer loop (aioserver.py lines 31-71) -/

/-- The logical object {"events": events} that both serialize branches
build. -/
structure EventsMessage (E : Type) where
  events : E
deriving Repr

/-- A serialized payload: the external json.dumps and bson.dumps encoders
are modelled by the logical object they encode plus the encoding kind;
isinstance(data, bytes) in the consumer distinguishes the two kinds. -/
inductive Serialized (E : Type)
  | text (msg : EventsMessage E)
  | binary (msg : EventsMessage E)
deriving Repr

/-- Python "%s" rendering of the protocol value (ws.protocol is None when
the client offered no matching subprotocol). -/
def protoStr : Option String → String
  | some s => s
  | none => "None"

/-- serialize (aioserver.py lines 31-43): the json branch returns the text
encoding of the object with the events under the "events" key; the bson
branch calls bson.dumps on the same object, but the module never imports
bson, so the name lookup raises NameError; any other protocol raises
ValueError. -/
def serialize {E : Type} (events : E) (protocol : Option String) :
    Except PyExc (Serialized E) :=
  if protocol = some "json" then .ok (.text ⟨events⟩)
  else if protocol = some "bson" then
    .error (.nameError "name 'bson' is not defined")
  else .error (.valueError ("Unknown protocol '" ++ protoStr protocol ++ "'"))

/-- Outcome of one transport write, an input from the environment. -/
inductive SendOutcome
  | sent
  | runtimeErr (msg : String)
deriving Repr, DecidableEq

/-- State of the consumer loop after a run. -/
inductive ConsumerStatus
  | running
  | stopped
  | crashed (e : PyExc)
deriving Repr, DecidableEq

/-- Observables of a consumer run: final keeper, how many drains and how
many write attempts were performed, how the loop ended, and whether
anything was signalled to the session handler. -/
structure ConsumerResult (V : Type) where
  keeper : EventKeeper V
  drains : Nat
  sendTries : Nat
  status : ConsumerStatus
  signaledManager : Bool

/-- consumer (aioserver.py lines 46-71), driven by a per-iteration script
of transport outcomes: each list element is one loop iteration — sleep,
drain the keeper, serialize, write. A RuntimeError from the write is
caught and breaks the loop (stopped); an exception from serialize is not
caught and kills the coroutine (crashed); an exhausted script leaves the
loop still running. Nothing in the source signals the session handler on
any path, so signaledManager is always false. -/
def consumer {V : Type} (protocol : Option String) (k : EventKeeper V) :
    List SendOutcome → ConsumerResult V
  | [] => ⟨k, 0, 0, .running, false⟩
  | o :: rest =>
      match serialize (k.get).1 protocol with
      | .error e => ⟨(k.get).2, 1, 0, .crashed e, false⟩
      | .ok _ =>
          match o with
          | .runtimeErr _ => ⟨(k.get).2, 1, 1, .stopped, false⟩
          | .sent =>
              let r := consumer protocol (k.get).2 rest
              ⟨r.keeper, r.drains + 1, r.sendTries + 1, r.status, r.signaledManager⟩

/-- What handle_websocket (aioserver.py lines 97-115) does before its read
loop: prepare the websocket with offered protocols ("json", "bson"), log,
create a fresh EventKeeper, spawn the consumer task with whatever
protocol the transport negotiated, and initialise the empty listeners
dict. The source contains no branch on the negotiated protocol, so setup
always reaches the read loop — the session's OPEN state. -/
structure SetupResult where
  reachedOpen : Bool
  consumerProtocol : Option String
  listeners : List (JVal × Nat)
deriving Repr

/-- The straight-line setup of handle_websocket. -/
def handle_websocket_setup (negotiated : Option String) : SetupResult :=
  { reachedOpen := true, consumerProtocol := negotiated, listeners := [] }

/-! ## db_handler (aioserver.py lines 151-165) -/

/-- Outcome of the external tangoschema.execute(query) call: the data
attribute of its result, or the exception it raised. -/
inductive EngineOutcome
  | ok (resultData : Option JVal)
  | raises (e : PyExc)
deriving Repr

/-- What the handler hands back to the web framework: a response whose
JSON body is the given object, or nothing at all (Python's implicit
return None after the except block prints the exception). -/
inductive HandlerReturn
  | response (body : JVal)
  | nothing
deriving Repr

/-- Python falsiness of the values result.data can hold. -/
def jfalsy : JVal → Bool
  | .jnull => true
  | .jstr s => s.isEmpty
  | .jnum n => n == 0
  | .jbool b => !b
  | .jlist xs => xs.isEmpty
  | .jobj fs => fs.isEmpty

/-- result.data or {}. -/
def pyOrEmpty (x : Option JVal) : JVal :=
  match x with
  | some v => if jfalsy v then .jobj [] else v
  | none => .jobj []

/-- db_handler (aioserver.py lines 151-165): post_data["query"] is read
outside the try, so a missing key propagates; the engine call sits inside
a try whose except prints the exception and falls off the end, returning
None; on success the response body is the object with result.data or {}
under the "data" key. -/
def db_handler (postData : List (String × JVal)) (engine : JVal → EngineOutcome) :
    Except PyExc HandlerReturn :=
  match jlookup postData "query" with
  | none => .error (.keyError "query")
  | some q =>
      match engine q with
      | .raises _ => .ok .nothing
      | .ok d => .ok (.response (.jobj [("data", pyOrEmpty d)]))

/-! ## Claim theorems for the session, delivery loop and query gateway -/

/-- The command {"type": "SUBSCRIBE", "models": ["a"]} as parsed JSON. -/
def subAcmd : JVal :=
  .jobj [("type", .jstr "SUBSCRIBE"), ("models", .jlist [.jstr "a"])]

/-- C2: refuted on the code — the teardown block after the read loop
(aioserver.py lines 141-144) is unreachable, because the while True loop
contains no break and any escaping exception bypasses the block, so no
run of the loop ever executes the teardown (first conjunct); concretely,
a session that subscribes to "a" and then suffers a transport failure in
ws.receive() dies with its adapter registration still active and the
cleanup never performed. -/
theorem c2_teardown_unreachable :
    (∀ (st : SessionState) (evs : List RecvEvent),
      (runSession st evs).cleaned = false)
    ∧ (runSession sessionInit
        [.msg (.text (.ok subAcmd)),
         .recvRaised (.runtimeError "connection lost")]).outcome
        = .died (.runtimeError "connection lost")
    ∧ activeCount (runSession sessionInit
        [.msg (.text (.ok subAcmd)),
         .recvRaised (.runtimeError "connection lost")]).st (.jstr "a") = 1 := by
  refine ⟨?_, rfl, rfl⟩
  intro st evs
  induction evs generalizing st with
  | nil => rfl
  | cons e rest ih =>
      cases e with
      | recvRaised e => rfl
      | msg m =>
          simp only [runSession]
          cases handleMsg st m with
          | ok st2 => exact ih st2
          | error e =>
              by_cases h : isRuntimeError e = true
              · simp [h, ih]
              · simp [h]

/-- C3 counterexample: processing SUBSCRIBE for "a" twice on one
connection leaves two active adapter registrations for "a" — the first
listener is overwritten in the dict but never cleared — refuting the
claim that exactly one registration stays active for the pair. -/
theorem c3_counterexample :
    activeCount (runSession sessionInit
        [.msg (.text (.ok subAcmd)), .msg (.text (.ok subAcmd))]).st
        (.jstr "a") = 2
    ∧ (runSession sessionInit
        [.msg (.text (.ok subAcmd)), .msg (.text (.ok subAcmd))]).st.listeners
        = [(.jstr "a", 1)] := ⟨rfl, rfl⟩

/-- C3 amended: processing a SUBSCRIBE command for a point always
registers a fresh adapter and replaces the bookkeeping entry for that
point, while every previously active registration — including one for the
same point — stays active: re-subscribing duplicates the active
registration instead of keeping or clearing the old one. -/
theorem c3_resubscribe_replaces_entry_keeps_old_registration
    (st : SessionState) (a : JVal) :
    handle_text st (.jobj [("type", .jstr "SUBSCRIBE"), ("models", .jlist [a])])
      = .ok { listeners := dictSet st.listeners a st.nextId,
              active := st.active ++ [(st.nextId, a)],
              nextId := st.nextId + 1 } := by
  simp [handle_text, jlookup, jeqStr, jiter, subscribeAll, registerListener]

/-- C5 counterexample: a text frame whose payload is not parseable JSON
raises JSONDecodeError inside the loop, which catches only RuntimeError,
so the session dies instead of continuing — the following SUBSCRIBE is
never processed — and a JSON object lacking the "type" field likewise
kills the session with a KeyError. -/
theorem c5_counterexample :
    (runSession sessionInit
        [.msg (.text (.error (.jsonDecodeError "Expecting value"))),
         .msg (.text (.ok subAcmd))]).outcome
      = .died (.jsonDecodeError "Expecting value")
    ∧ (runSession sessionInit
        [.msg (.text (.error (.jsonDecodeError "Expecting value"))),
         .msg (.text (.ok subAcmd))]).st.active = []
    ∧ (runSession sessionInit
        [.msg (.text (.ok (.jobj [("models", .jlist [.jstr "a"])])))]).outcome
      = .died (.keyError "type") := ⟨rfl, rfl, rfl⟩

/-- C5 amended: the read loop is permissive only for payloads that parse
as JSON objects whose "type" equals neither "SUBSCRIBE" nor
"UNSUBSCRIBE", for transport error frames, and for frames of other types
— those are ignored and the session continues with unchanged state; a
text frame that fails JSON parsing or lacks the expected fields raises an
exception that, not being RuntimeError, terminates the session. -/
theorem c5_unrecognized_payloads_ignored
    (st : SessionState) (rest : List RecvEvent) (fields : List (String × JVal))
    (ty : JVal) (h1 : jlookup fields "type" = some ty)
    (h2 : jeqStr ty "SUBSCRIBE" = false) (h3 : jeqStr ty "UNSUBSCRIBE" = false) :
    runSession st (.msg (.text (.ok (.jobj fields))) :: rest) = runSession st rest
    ∧ runSession st (.msg .wserror :: rest) = runSession st rest
    ∧ runSession st (.msg .otherKind :: rest) = runSession st rest := by
  refine ⟨?_, rfl, rfl⟩
  simp [runSession, handleMsg, handle_text, h1, h2, h3]

/-- Witness for the C5 amendment: a {"type": "PING"} command is ignored
and the loop keeps reading. -/
theorem c5_witness :
    runSession sessionInit [.msg (.text (.ok (.jobj [("type", .jstr "PING")])))]
      = runSession sessionInit [] :=
  (c5_unrecognized_payloads_ignored sessionInit [] [("type", .jstr "PING")]
    (.jstr "PING") rfl rfl rfl).1

/-- C4 counterexample: when the engine raises, db_handler prints the
exception and returns nothing (Python's None) — no structured error
object is produced for the caller. -/
theorem c4_counterexample :
    db_handler [("query", .jstr "{ devices }")]
        (fun _ => .raises (.valueError "DevFailed")) = .ok .nothing := rfl

/-- C4 amended: on success db_handler returns a response whose body is
the object carrying result.data (or {} when falsy) under the "data" key;
when the engine raises, the exception is swallowed and the handler
returns nothing at all — it does not return a structured error object. -/
theorem c4_success_data_failure_returns_nothing
    (pd : List (String × JVal)) (engine : JVal → EngineOutcome) (q : JVal)
    (h : jlookup pd "query" = some q) :
    (∀ e, engine q = .raises e → db_handler pd engine = .ok .nothing)
    ∧ (∀ d, engine q = .ok d →
        db_handler pd engine = .ok (.response (.jobj [("data", pyOrEmpty d)]))) := by
  constructor
  · intro e he
    simp [db_handler, h, he]
  · intro d hd
    simp [db_handler, h, hd]

/-- Witness for the C4 amendment at a concrete request and engine. -/
theorem c4_witness :
    db_handler [("query", .jstr "q")] (fun _ => .ok (some (.jnum 5)))
      = .ok (.response (.jobj [("data", .jnum 5)])) :=
  (c4_success_data_failure_returns_nothing [("query", .jstr "q")]
    (fun _ => .ok (some (.jnum 5))) (.jstr "q") rfl).2 (some (.jnum 5)) rfl

/-- C6: refuted on the code — on a concrete batch the default text format
succeeds and encodes the logical object with the batch under "events",
but the binary format raises NameError, because the module never imports
bson; the two formats do not both succeed. -/
theorem c6_bson_raises_nameerror :
    serialize (42 : Nat) (some "json") = .ok (.text ⟨42⟩)
    ∧ serialize (42 : Nat) (some "bson")
        = (.error (.nameError "name 'bson' is not defined")
            : Except PyExc (Serialized Nat)) := ⟨rfl, rfl⟩

/-- C7 counterexample: with no matching negotiated subprotocol
(ws.protocol is None) the setup still reaches the read loop — nothing
rejects the connection — and the unknown format then surfaces exactly as
a failure of the first batch send: the consumer drains once and its
serialize call raises an uncaught ValueError on the open session. -/
theorem c7_counterexample :
    (handle_websocket_setup none).reachedOpen = true
    ∧ (consumer none (EventKeeper.init : EventKeeper Nat) [.sent]).status
        = .crashed (.valueError "Unknown protocol 'None'")
    ∧ (consumer none (EventKeeper.init : EventKeeper Nat) [.sent]).drains = 1 :=
  ⟨rfl, rfl, rfl⟩

/-- C7 amended: the source rejects nothing at connection setup — the
session reaches OPEN whatever format was negotiated — and a negotiated
format that is neither "json" nor "bson" makes the first delivery-loop
iteration raise an uncaught ValueError before any write: the unknown
format surfaces as a batch-send failure on the open session, not as a
setup-time rejection. -/
theorem c7_no_setup_rejection (V : Type) (p : Option String) (k : EventKeeper V)
    (o : SendOutcome) (os : List SendOutcome)
    (h1 : p ≠ some "json") (h2 : p ≠ some "bson") :
    (handle_websocket_setup p).reachedOpen = true
    ∧ (consumer p k (o :: os)).status
        = .crashed (.valueError ("Unknown protocol '" ++ protoStr p ++ "'"))
    ∧ (consumer p k (o :: os)).sendTries = 0 := by
  refine ⟨rfl, ?_, ?_⟩ <;> simp [consumer, serialize, h1, h2]

/-- Witness for the C7 amendment at the concrete unknown format "xml". -/
theorem c7_witness :
    (handle_websocket_setup (some "xml")).reachedOpen = true
    ∧ (consumer (some "xml") (EventKeeper.init : EventKeeper Nat) [.sent]).status
        = .crashed (.valueError "Unknown protocol 'xml'")
    ∧ (consumer (some "xml") (EventKeeper.init : EventKeeper Nat) [.sent]).sendTries
        = 0 :=
  c7_no_setup_rejection Nat (some "xml") EventKeeper.init .sent []
    (by decide) (by decide)

/-- C8 counterexample: the write fails on the first iteration and the
loop stops for good — the remaining script iterations produce no further
drain or write — but nothing is ever signalled to the session handler,
refuting the part of the claim that says the loop signals the session
manager to begin teardown. -/
theorem c8_counterexample :
    (consumer (some "json") (EventKeeper.init : EventKeeper Nat)
        [.runtimeErr "socket closed", .sent, .sent]).status = .stopped
    ∧ (consumer (some "json") (EventKeeper.init : EventKeeper Nat)
        [.runtimeErr "socket closed", .sent, .sent]).drains = 1
    ∧ (consumer (some "json") (EventKeeper.init : EventKeeper Nat)
        [.runtimeErr "socket closed", .sent, .sent]).sendTries = 1
    ∧ (consumer (some "json") (EventKeeper.init : EventKeeper Nat)
        [.runtimeErr "socket closed", .sent, .sent]).signaledManager = false :=
  ⟨rfl, rfl, rfl, rfl⟩

/-- C8 amended: once a transport write fails in the delivery loop, the
loop transitions irreversibly to stopped — whatever the remaining script
holds, it never retries the failed write and never performs another drain
or send — but it does not signal the session handler: the source has no
signalling channel, so signaledManager is false. -/
theorem c8_write_failure_stops_loop (V : Type) (k : EventKeeper V) (m : String)
    (pre post : List SendOutcome) (hpre : ∀ o ∈ pre, o = .sent) :
    (consumer (some "json") k (pre ++ .runtimeErr m :: post)).status = .stopped
    ∧ (consumer (some "json") k (pre ++ .runtimeErr m :: post)).drains
        = pre.length + 1
    ∧ (consumer (some "json") k (pre ++ .runtimeErr m :: post)).sendTries
        = pre.length + 1
    ∧ (consumer (some "json") k (pre ++ .runtimeErr m :: post)).signaledManager
        = false := by
  induction pre generalizing k with
  | nil => exact ⟨rfl, rfl, rfl, rfl⟩
  | cons o pre ih =>
      have ho : o = .sent := hpre o (by simp)
      subst ho
      have h := ih (k.get).2 (fun o ho => hpre o (by simp [ho]))
      simp [consumer, serialize, h.1, h.2.1, h.2.2.1, h.2.2.2]

/-- Witness for the C8 amendment: one successful send, then a failed
write, then one more scripted iteration that is never executed. -/
theorem c8_witness :
    (consumer (some "json") (EventKeeper.init : EventKeeper Nat)
        ([.sent] ++ .runtimeErr "gone" :: [.sent])).status = .stopped
    ∧ (consumer (some "json") (EventKeeper.init : EventKeeper Nat)
        ([.sent] ++ .runtimeErr "gone" :: [.sent])).drains = 2
    ∧ (consumer (some "json") (EventKeeper.init : EventKeeper Nat)
        ([.sent] ++ .runtimeErr "gone" :: [.sent])).sendTries = 2
    ∧ (consumer (some "json") (EventKeeper.init : EventKeeper Nat)
        ([.sent] ++ .runtimeErr "gone" :: [.sent])).signaledManager = false :=
  c8_write_failure_stops_loop Nat EventKeeper.init "gone" [.sent] [.sent]
    (by decide)

end TangoGql
